import Mathlib

set_option maxRecDepth 8192

/-!
Verification development for the deduplicated ingestion pipeline of
`ingest_push_to_snowflake.py` and its CSV variant `test_api.py`.

The Python values that flow through the pipeline (elements of the fetched
JSON array) are embedded as the mutual inductive `Json`.  Numbers are
modelled as integers; the record-level claims under study do not depend on
float values inside records (float-typed *columns* are modelled separately
for schema inference).
-/

mutual

inductive Json where
  | null : Json
  | bool (b : Bool) : Json
  | int (n : Int) : Json
  | str (s : String) : Json
  | arr (xs : JsonList) : Json
  | obj (kvs : JsonObj) : Json

inductive JsonList where
  | nil : JsonList
  | cons (hd : Json) (tl : JsonList) : JsonList

inductive JsonObj where
  | nil : JsonObj
  | cons (k : String) (v : Json) (tl : JsonObj) : JsonObj

end

/-! ### String comparison (Python code-point lexicographic order) -/

/-- Lexicographic comparison of char lists by code point, as Python
compares `str` values (used by `sorted` on dict keys). -/
def ltChars : List Char → List Char → Bool
  | [], [] => false
  | [], _ :: _ => true
  | _ :: _, [] => false
  | a :: as, b :: bs =>
      if a.toNat < b.toNat then true
      else if b.toNat < a.toNat then false
      else ltChars as bs

def strLtB (a b : String) : Bool := ltChars a.data b.data

/-! ### Key sorting (the `sort_keys=True` part of `json.dumps`) -/

/-- Stable insertion of one key/value pair: the new pair goes in front of
the first entry whose key is not smaller. -/
def insertPair (k : String) (v : Json) : JsonObj → JsonObj
  | .nil => .cons k v .nil
  | .cons k2 v2 t =>
      if strLtB k2 k then .cons k2 v2 (insertPair k v t)
      else .cons k v (.cons k2 v2 t)

/-- Stable insertion sort of an object's entries by key: the order
`sorted(dict)` produces for `json.dumps(..., sort_keys=True)`. -/
def sortPairs : JsonObj → JsonObj
  | .nil => .nil
  | .cons k v t => insertPair k v (sortPairs t)

mutual

/-- Recursively sort all object keys of a JSON value.  Two values carry the
same logical content up to key order exactly when they sort to equal
values. -/
def sortJson : Json → Json
  | .arr xs => .arr (sortJsonList xs)
  | .obj kvs => .obj (sortPairs (sortJsonObj kvs))
  | j => j

def sortJsonList : JsonList → JsonList
  | .nil => .nil
  | .cons x t => .cons (sortJson x) (sortJsonList t)

def sortJsonObj : JsonObj → JsonObj
  | .nil => .nil
  | .cons k v t => .cons k (sortJson v) (sortJsonObj t)

end

/-- Content identity modulo object key order: equality after recursively
sorting all object keys. -/
def ContentEq (o1 o2 : Json) : Prop := sortJson o1 = sortJson o2

/-! ### Serialization: `json.dumps` with its default separators

`json.dumps` uses separators `", "` and `": "`, renders strings with
`ensure_ascii=True` escaping, and (with `sort_keys=True`) emits object
entries in sorted key order. -/

/-- Lower-case hex rendering of `n`, zero-padded to `d` digits
(most significant digit first). -/
def hexPad : Nat → Nat → String
  | 0, _ => ""
  | d + 1, n => hexPad d (n / 16) ++ String.singleton (
      if n % 16 < 10 then Char.ofNat (48 + n % 16) else Char.ofNat (87 + n % 16))

/-- Escape one character the way `json.dumps` (`ensure_ascii=True`) does. -/
def escChar (c : Char) : String :=
  let n := c.toNat
  if c = Char.ofNat 34 then "\\\""
  else if c = Char.ofNat 92 then "\\\\"
  else if n = 10 then "\\n"
  else if n = 9 then "\\t"
  else if n = 13 then "\\r"
  else if n = 8 then "\\b"
  else if n = 12 then "\\f"
  else if n < 32 then "\\u" ++ hexPad 4 n
  else if n < 128 then String.singleton c
  else if n < 65536 then "\\u" ++ hexPad 4 n
  else "\\u" ++ hexPad 4 (55296 + (n - 65536) / 1024)
       ++ "\\u" ++ hexPad 4 (56320 + (n - 65536) % 1024)

/-- The JSON string literal for `s`: double quotes around the escaped text. -/
def jsonQuote (s : String) : String :=
  String.singleton (Char.ofNat 34) ++ String.join (s.data.map escChar)
    ++ String.singleton (Char.ofNat 34)

/-- Stable insertion of a rendered entry `(key, rendered value)` into a
list sorted by key. -/
def insertEntry (e : String × String) : List (String × String) → List (String × String)
  | [] => [e]
  | e2 :: t => if strLtB e2.1 e.1 then e2 :: insertEntry e t else e :: e2 :: t

/-- Stable insertion sort of rendered entries by key. -/
def sortEntries : List (String × String) → List (String × String)
  | [] => []
  | e :: t => insertEntry e (sortEntries t)

/-- Join rendered object entries with the default `json.dumps` separators
`": "` and `", "`. -/
def joinEntries : List (String × String) → String
  | [] => ""
  | [e] => jsonQuote e.1 ++ ": " ++ e.2
  | e :: e2 :: t => jsonQuote e.1 ++ ": " ++ e.2 ++ ", " ++ joinEntries (e2 :: t)

/-- Join rendered array elements with the default `", "` separator. -/
def joinElems : List String → String
  | [] => ""
  | [r] => r
  | r :: r2 :: t => r ++ ", " ++ joinElems (r2 :: t)

mutual

/-- Serialization `json.dumps(obj, sort_keys=True)`: canonical text with
entries emitted in sorted key order at every object node and the default
`", "` / `": "` separators.  Each value is rendered and the entries of an
object are then ordered by key (sorting compares keys only, so this is the
order `sorted(items)` produces). -/
def serialize : Json → String
  | .null => "null"
  | .bool b => cond b "true" "false"
  | .int n => toString n
  | .str s => jsonQuote s
  | .arr xs => "[" ++ joinElems (renderList xs) ++ "]"
  | .obj kvs => "\x7b" ++ joinEntries (sortEntries (renderPairs kvs)) ++ "\x7d"

def renderList : JsonList → List String
  | .nil => []
  | .cons x t => serialize x :: renderList t

def renderPairs : JsonObj → List (String × String)
  | .nil => []
  | .cons k v t => (k, serialize v) :: renderPairs t

end

mutual

/-- Serialization `json.dumps(obj)` without `sort_keys`: insertion order preserved
(used for the archive payload `json.dumps(json_data[i])`). -/
def serializeRaw : Json → String
  | .null => "null"
  | .bool b => cond b "true" "false"
  | .int n => toString n
  | .str s => jsonQuote s
  | .arr xs => "[" ++ joinElems (renderListRaw xs) ++ "]"
  | .obj kvs => "\x7b" ++ joinEntries (renderPairsRaw kvs) ++ "\x7d"

def renderListRaw : JsonList → List String
  | .nil => []
  | .cons x t => serializeRaw x :: renderListRaw t

def renderPairsRaw : JsonObj → List (String × String)
  | .nil => []
  | .cons k v t => (k, serializeRaw v) :: renderPairsRaw t

end

/-! ### UTF-8 bytes of a string (Python `str.encode()`) -/

def charUtf8 (c : Char) : List Nat :=
  let n := c.toNat
  if n < 128 then [n]
  else if n < 2048 then [192 + n / 64, 128 + n % 64]
  else if n < 65536 then [224 + n / 4096, 128 + n / 64 % 64, 128 + n % 64]
  else [240 + n / 262144, 128 + n / 4096 % 64, 128 + n / 64 % 64, 128 + n % 64]

def strBytes (s : String) : List Nat := (s.data.map charUtf8).flatten

/-! ### SHA-256 (`hashlib.sha256`), over byte lists, all words as `Nat % 2^32` -/

/-- Bitwise exclusive or on the low 32 bits, computed arithmetically so the
kernel can evaluate it. -/
def bxor32 : Nat → Nat → Nat → Nat
  | 0, _, _ => 0
  | f + 1, a, b =>
      (if (a + b) % 2 = 1 then 1 else 0) + 2 * bxor32 f (a / 2) (b / 2)

/-- Bitwise and on the low 32 bits. -/
def band32 : Nat → Nat → Nat → Nat
  | 0, _, _ => 0
  | f + 1, a, b => (a % 2) * (b % 2) + 2 * band32 f (a / 2) (b / 2)

def xor32 (a b : Nat) : Nat := bxor32 32 a b
def and32 (a b : Nat) : Nat := band32 32 a b
def not32 (a : Nat) : Nat := 4294967295 - a % 4294967296

def rotr32 (r x : Nat) : Nat :=
  (x % 4294967296) / 2 ^ r + (x % 2 ^ r) * 2 ^ (32 - r)

def shr32 (r x : Nat) : Nat := (x % 4294967296) / 2 ^ r

def bigSigma0 (x : Nat) : Nat := xor32 (rotr32 2 x) (xor32 (rotr32 13 x) (rotr32 22 x))
def bigSigma1 (x : Nat) : Nat := xor32 (rotr32 6 x) (xor32 (rotr32 11 x) (rotr32 25 x))
def smallSigma0 (x : Nat) : Nat := xor32 (rotr32 7 x) (xor32 (rotr32 18 x) (shr32 3 x))
def smallSigma1 (x : Nat) : Nat := xor32 (rotr32 17 x) (xor32 (rotr32 19 x) (shr32 10 x))

/-- The eight working variables of the SHA-256 compression function. -/
structure Hash8 where
  a : Nat
  b : Nat
  c : Nat
  d : Nat
  e : Nat
  f : Nat
  g : Nat
  h : Nat

def initH : Hash8 :=
  ⟨1779033703, 3144134277, 1013904242, 2773480762,
   1359893119, 2600822924, 528734635, 1541459225⟩

def sha256K : List Nat :=
  [1116352408, 1899447441, 3049323471, 3921009573,
   961987163, 1508970993, 2453635748, 2870763221,
   3624381080, 310598401, 607225278, 1426881987,
   1925078388, 2162078206, 2614888103, 3248222580,
   3835390401, 4022224774, 264347078, 604807628,
   770255983, 1249150122, 1555081692, 1996064986,
   2554220882, 2821834349, 2952996808, 3210313671,
   3336571891, 3584528711, 113926993, 338241895,
   666307205, 773529912, 1294757372, 1396182291,
   1695183700, 1986661051, 2177026350, 2456956037,
   2730485921, 2820302411, 3259730800, 3345764771,
   3516065817, 3600352804, 4094571909, 275423344,
   430227734, 506948616, 659060556, 883997877,
   958139571, 1322822218, 1537002063, 1747873779,
   1955562222, 2024104815, 2227730452, 2361852424,
   2428436474, 2756734187, 3204031479, 3329325298]

def sha256Round (st : Hash8) (kw : Nat × Nat) : Hash8 :=
  let s1 := bigSigma1 st.e
  let ch := xor32 (and32 st.e st.f) (and32 (not32 st.e) st.g)
  let t1 := (st.h + s1 + ch + kw.1 + kw.2) % 4294967296
  let s0 := bigSigma0 st.a
  let mj := xor32 (and32 st.a st.b) (xor32 (and32 st.a st.c) (and32 st.b st.c))
  let t2 := (s0 + mj) % 4294967296
  ⟨(t1 + t2) % 4294967296, st.a, st.b, st.c,
   (st.d + t1) % 4294967296, st.e, st.f, st.g⟩

/-- Extend a 16-word block: append one schedule word. -/
def extStep (w : List Nat) : List Nat :=
  let n := w.length
  w ++ [(w.getD (n - 16) 0 + smallSigma0 (w.getD (n - 15) 0)
         + w.getD (n - 7) 0 + smallSigma1 (w.getD (n - 2) 0)) % 4294967296]

def iterN {α : Type} : Nat → (α → α) → α → α
  | 0, _, a => a
  | n + 1, f, a => iterN n f (f a)

def extendW (w : List Nat) : List Nat := iterN 48 extStep w

def compressBlock (st : Hash8) (ws : List Nat) : Hash8 :=
  let sched := extendW ws
  let fin := (sha256K.zip sched).foldl sha256Round st
  ⟨(st.a + fin.a) % 4294967296, (st.b + fin.b) % 4294967296,
   (st.c + fin.c) % 4294967296, (st.d + fin.d) % 4294967296,
   (st.e + fin.e) % 4294967296, (st.f + fin.f) % 4294967296,
   (st.g + fin.g) % 4294967296, (st.h + fin.h) % 4294967296⟩

/-- Big-endian 8-byte encoding of the bit length. -/
def lenBytes (n : Nat) : List Nat :=
  [n / 2 ^ 56 % 256, n / 2 ^ 48 % 256, n / 2 ^ 40 % 256, n / 2 ^ 32 % 256,
   n / 2 ^ 24 % 256, n / 2 ^ 16 % 256, n / 2 ^ 8 % 256, n % 256]

/-- SHA-256 padding: `0x80`, zeros to 56 mod 64, then the 64-bit length. -/
def padMsg (msg : List Nat) : List Nat :=
  msg ++ [128] ++ List.replicate ((64 - (msg.length + 9) % 64) % 64) 0
      ++ lenBytes (msg.length * 8)

/-- Group bytes into big-endian 32-bit words. -/
def bytesToWords : List Nat → List Nat
  | b0 :: b1 :: b2 :: b3 :: rest =>
      (b0 * 16777216 + b1 * 65536 + b2 * 256 + b3) :: bytesToWords rest
  | _ => []

/-- Split a word list into blocks of 16 (fuel-driven so it reduces). -/
def toBlocks : Nat → List Nat → List (List Nat)
  | 0, _ => []
  | _, [] => []
  | f + 1, ws => ws.take 16 :: toBlocks f (ws.drop 16)

/-- Append one 32-bit word to an accumulated big-endian number. -/
def wordAcc (acc w : Nat) : Nat := acc * 4294967296 + w % 4294967296

/-- The 256-bit number `h0 ‖ h1 ‖ … ‖ h7` of a final hash state. -/
def hash8Nat (s : Hash8) : Nat :=
  wordAcc (wordAcc (wordAcc (wordAcc (wordAcc (wordAcc (wordAcc
    (s.a % 4294967296) s.b) s.c) s.d) s.e) s.f) s.g) s.h

/-- The SHA-256 digest of a byte list, as the 256-bit natural number
`h0 ‖ h1 ‖ … ‖ h7`. -/
def sha256Nat (msg : List Nat) : Nat :=
  let ws := bytesToWords (padMsg msg)
  hash8Nat ((toBlocks ws.length ws).foldl compressBlock initH)

/-- The digest `hashlib.sha256(bs).hexdigest()`: 64 lower-case hex digits. -/
def sha256Hex (bs : List Nat) : String := hexPad 64 (sha256Nat bs)

/-- The function `compute_hash(obj)` of both scripts:
`hashlib.sha256(json.dumps(obj, sort_keys=True).encode()).hexdigest()`. -/
def compute_hash (j : Json) : String := sha256Hex (strBytes (serialize j))

/-! ### Normalization (`pd.json_normalize` + column canonicalization)

`pd.json_normalize` flattens nested objects with its default separator
`sep='.'`; the script then renames columns with
`c.upper().replace(" ", "_")`, which uppercases and replaces *spaces*
(and nothing else) with underscores. -/

/-- One character of `c.upper().replace(" ", "_")`: ASCII uppercase, then
a space becomes an underscore. -/
def canonChar (c : Char) : Char :=
  let u := c.toUpper
  if u = ' ' then '_' else u

/-- Column canonicalization `c.upper().replace(" ", "_")`. -/
def canonKey (s : String) : String := String.mk (s.data.map canonChar)

mutual

/-- Flattened entries contributed by one key/value pair, as
`pd.json_normalize` produces them: a nested object is flattened
recursively and its keys are joined to the parent key with `"."`;
any other value stays a single entry. -/
def flattenVal (k : String) (v : Json) : List (String × Json) :=
  match v with
  | .obj kvs => (flattenPairs kvs).map (fun p => (k ++ "." ++ p.1, p.2))
  | _ => [(k, v)]

/-- Flatten all entries of one record. -/
def flattenPairs : JsonObj → List (String × Json)
  | .nil => []
  | .cons k v t => flattenVal k v ++ flattenPairs t

end

/-- The normalized (flattened, canonicalized) cells of one record.
Records of the fetched array are JSON objects; a non-object element
contributes no columns. -/
def normRecord (j : Json) : List (String × Json) :=
  match j with
  | .obj kvs => (flattenPairs kvs).map (fun p => (canonKey p.1, p.2))
  | _ => []

/-- First-occurrence deduplication, keeping the order in which column
names first appear (pandas column order for a union of record keys). -/
def firstDedup (seen : List String) : List String → List String
  | [] => []
  | x :: xs =>
      if x ∈ seen then firstDedup seen xs
      else x :: firstDedup (x :: seen) xs

/-- The columns of the normalized dataframe: union of the records' flattened
canonical keys in first-appearance order, then the two appended columns
`_INGEST_TS` and `RECORD_HASH`. -/
def dfCols (data : List Json) : List String :=
  firstDedup [] ((data.map (fun j => (normRecord j).map Prod.fst)).flatten)
    ++ ["_INGEST_TS", "RECORD_HASH"]

/-- One row of the normalized dataframe: the flattened cells plus the
`_INGEST_TS` and `RECORD_HASH` columns (the ingestion timestamp is
modelled as an opaque string, equal for every row of a batch). -/
structure NormRow where
  cells : List (String × Json)
  recordHash : String

def mkRow (ts : String) (j : Json) : NormRow :=
  { cells := normRecord j
      ++ [("_INGEST_TS", Json.str ts), ("RECORD_HASH", Json.str (compute_hash j))],
    recordHash := compute_hash j }

def buildRows (data : List Json) (ts : String) : List NormRow :=
  data.map (mkRow ts)

/-- Reading one cell of a row whose column exists in the dataframe:
a record that lacks the key yields the missing marker (pandas `NaN`,
modelled as `Json.null`). -/
def rowGet (r : NormRow) (col : String) : Json :=
  (r.cells.lookup col).getD Json.null

/-! ### The warehouse state and the pipeline -/

/-- One row of `RAW.RAW_JSON.RAW_JSON_ARCHIVE`. -/
structure ArchiveRow where
  id : Json
  rawPayload : String
  apiId : String
  apiFingerprint : String
  recordHash : String
  status : String

/-- The warehouse tables the pipeline writes: the hash tracker
(`(record_hash, record_source)` pairs), the raw-JSON archive, the flat
table and the fingerprint log (`(api_id, fingerprint, payload_length)`). -/
structure DB where
  tracker : List (String × String)
  archive : List ArchiveRow
  flat : List (List (String × Json))
  fingLog : List (String × String × Nat)

def emptyDB : DB := ⟨[], [], [], []⟩

/-- Outcome of `requests.get` + `raise_for_status` + `.json()`:
either the request itself fails (timeout / connection error), or a
response arrives with an HTTP status, a body text and — when the body is
well-formed JSON — the parsed array. -/
inductive FetchOutcome where
  | timeout : FetchOutcome
  | response (status : Nat) (text : String) (parsed : Option (List Json)) : FetchOutcome

/-- The fetch stage fails: the request raised, `raise_for_status` raised
(HTTP 4xx/5xx), or `.json()` raised on a malformed body. -/
def fetchFails : FetchOutcome → Prop
  | .timeout => True
  | .response status _ parsed => 400 ≤ status ∨ parsed = none

/-- The existing-hash set loaded by
`SELECT RECORD_HASH FROM RAW.RAW_JSON.RECORD_HASH_TRACKER`:
every tracked hash, with no filter on `record_source`. -/
def existingHashes (db : DB) : List String := db.tracker.map Prod.fst

/-- The filter `df[~df["RECORD_HASH"].isin(existing_hashes)]`: keep the rows whose
hash is not in the existing set, in order.  Rows are paired with the
original array elements, mirroring the positional index the script uses
to recover `json_data[i]` for each kept row. -/
def dedupFilter (existing : List String) (pairs : List (NormRow × Json)) :
    List (NormRow × Json) :=
  pairs.filter (fun rj => decide (rj.1.recordHash ∉ existing))

/-- The filtered batch of a run: rows built from the first ten fetched
records, paired with their source records, minus already-tracked hashes. -/
def filteredPairs (db : DB) (data0 : List Json) (ts : String) :
    List (NormRow × Json) :=
  dedupFilter (existingHashes db)
    ((buildRows (data0.take 10) ts).zip (data0.take 10))

/-- Step 4 of the script: one archive INSERT per filtered row, with
`row['COUNTRY']` as the id.  Accessing the `COUNTRY` column raises a
`KeyError` when the dataframe has no such column, which only happens if
the loop body runs at all — i.e. when the filtered batch is non-empty. -/
def archiveStage (fingerprint : String) (filtered : List (NormRow × Json))
    (cols : List String) : Except Unit (List ArchiveRow) :=
  match filtered with
  | [] => .ok []
  | _ =>
      if "COUNTRY" ∈ cols then
        .ok (filtered.map (fun rj =>
          { id := rowGet rj.1 "COUNTRY",
            rawPayload := serializeRaw rj.2,
            apiId := "covid_api",
            apiFingerprint := fingerprint,
            recordHash := rj.1.recordHash,
            status := "fetched" }))
      else .error ()

inductive RunStatus where
  | done : RunStatus
  | failed : RunStatus

/-- The whole `ingest_api_to_snowflake()` run: fetch, truncate to ten
records, fingerprint the body text, normalize, filter existing hashes,
archive, flat-load, track hashes, log the fingerprint.  Any raised error
is caught by the single top-level `except`, so a failing stage leaves the
warehouse as it was and the run ends failed. -/
def ingestPipeline (f : FetchOutcome) (ts : String) (db : DB) : DB × RunStatus :=
  match f with
  | .timeout => (db, .failed)
  | .response status text parsed =>
      if 400 ≤ status then (db, .failed)
      else
        match parsed with
        | none => (db, .failed)
        | some data0 =>
            let data := data0.take 10
            let fingerprint := compute_hash (Json.str text)
            let filtered := dedupFilter (existingHashes db)
              ((buildRows data ts).zip data)
            match archiveStage fingerprint filtered (dfCols data) with
            | .error _ => (db, .failed)
            | .ok archRows =>
                ({ tracker := db.tracker
                      ++ filtered.map (fun rj => (rj.1.recordHash, "covid_api")),
                   archive := db.archive ++ archRows,
                   flat := db.flat ++ filtered.map (fun rj => rj.1.cells),
                   fingLog := db.fingLog
                      ++ [("covid_api", compute_hash (Json.str text), text.length)] },
                 .done)

/-- The CSV variant (`test_api.py`): truncate to five records, build the
same normalized rows, and bulk-load all of them (no deduplication, no
archive, no bookkeeping). -/
def csvIngest (data0 : List Json) (ts : String) : List (List (String × Json)) :=
  (buildRows (data0.take 5) ts).map NormRow.cells

/-! ### Schema inference

The scripts derive the flat table's column types from pandas dtypes with
the chain `is_integer → NUMBER`, `is_float → FLOAT`, `is_bool → BOOLEAN`,
`is_datetime → TIMESTAMP`, else `STRING`. -/

inductive Dtype where
  | int64 : Dtype
  | float64 : Dtype
  | boolean : Dtype
  | datetime64 : Dtype
  | object : Dtype
deriving DecidableEq

/-- The kind of one Python value in a column (as far as pandas dtype
coercion is concerned). -/
inductive PyKind where
  | pint : PyKind
  | pfloat : PyKind
  | pbool : PyKind
  | pnone : PyKind
  | pstr : PyKind
  | pdatetime : PyKind
deriving DecidableEq

def isNumOrNone : PyKind → Bool
  | .pint => true
  | .pfloat => true
  | .pnone => true
  | _ => false

/-- Models the pandas dtype a column gets when a DataFrame is built from
Python objects (`pd.json_normalize`): all-bool → bool, all-int → int64,
numeric with a float or a missing value → float64 (`None` becomes `NaN`),
all-datetime → datetime64, anything else — including an all-`None`
column — → object. -/
def inferDtype (vs : List PyKind) : Dtype :=
  if vs.isEmpty then .object
  else if vs.all (· = .pbool) then .boolean
  else if vs.all (· = .pint) then .int64
  else if vs.all isNumOrNone && !vs.all (· = .pnone) then .float64
  else if vs.all (· = .pdatetime) then .datetime64
  else .object

/-- Lines 79–88 of the script: the fixed dtype → Snowflake type chain. -/
def sqlTypeOfDtype (d : Dtype) : String :=
  if d = .int64 then "NUMBER"
  else if d = .float64 then "FLOAT"
  else if d = .boolean then "BOOLEAN"
  else if d = .datetime64 then "TIMESTAMP"
  else "STRING"

/-- Adjacent order condition: the key at the head of `l` (if any) is not
smaller than `k`. -/
def headGe (k : String) : List (String × String) → Prop
  | [] => True
  | e :: _ => strLtB e.1 k = false

/-- Entries sorted by key: every adjacent pair is in non-decreasing key
order. -/
def entriesSorted : List (String × String) → Prop
  | [] => True
  | e :: t => headGe e.1 t ∧ entriesSorted t

/-- A single-entry record with an integer payload; distinct indices give
records with distinguishable content. -/
def famJson (n : Nat) : Json := .obj (.cons "k" (.int (n : Int)) .nil)

/-! ### Concrete example records -/

/-- The record `{"country": "A", "cases": 10}` of the spec's scenarios. -/
def recCountryA : Json := .obj (.cons "country" (.str "A") (.cons "cases" (.int 10) .nil))

/-- The same content with the key order reversed. -/
def recCountryARev : Json := .obj (.cons "cases" (.int 10) (.cons "country" (.str "A") .nil))

/-- A record without a `country` key. -/
def recNoCountry : Json := .obj (.cons "name" (.str "x") .nil)

/-- The nested record `{"country": "C", "stats": {"cases": 5}}`. -/
def recNested : Json := .obj (.cons "country" (.str "C")
  (.cons "stats" (.obj (.cons "cases" (.int 5) .nil)) .nil))

/-- A warehouse whose tracker knows `recCountryA`'s hash only under a
different source. -/
def dbOtherSource : DB := ⟨[(compute_hash recCountryA, "other_api")], [], [], []⟩


/-! ### Lemmas: key sorting commutes with serialization -/

theorem ltChars_asymm : ∀ {a b : List Char},
    ltChars a b = true → ltChars b a = false := by
  intro a
  induction a with
  | nil =>
      intro b h
      cases b with
      | nil => simp [ltChars] at h
      | cons c cs => simp [ltChars]
  | cons c cs ih =>
      intro b h
      cases b with
      | nil => simp [ltChars] at h
      | cons d ds =>
          simp only [ltChars] at h ⊢
          by_cases h1 : c.toNat < d.toNat
          · rw [if_neg (by omega), if_pos h1]
          · rw [if_neg h1] at h
            by_cases h2 : d.toNat < c.toNat
            · rw [if_pos h2] at h
              exact absurd h (by simp)
            · rw [if_neg h2] at h
              rw [if_neg h2, if_neg h1]
              exact ih h

theorem strLtB_asymm {a b : String} (h : strLtB a b = true) : strLtB b a = false :=
  ltChars_asymm h

theorem insertEntry_sorted (e : String × String) :
    ∀ {l : List (String × String)}, entriesSorted l →
      entriesSorted (insertEntry e l) := by
  intro l
  induction l with
  | nil => intro _; exact ⟨trivial, trivial⟩
  | cons e2 t ih =>
      intro hs
      obtain ⟨hhead, htail⟩ := hs
      by_cases hlt : strLtB e2.1 e.1 = true
      · rw [insertEntry, if_pos hlt]
        refine ⟨?_, ih htail⟩
        cases t with
        | nil => exact strLtB_asymm hlt
        | cons e3 t2 =>
            rw [insertEntry]
            by_cases h3 : strLtB e3.1 e.1 = true
            · rw [if_pos h3]; exact hhead
            · rw [if_neg h3]; exact strLtB_asymm hlt
      · rw [insertEntry, if_neg hlt]
        exact ⟨Bool.eq_false_iff.mpr hlt, hhead, htail⟩

theorem sortEntries_sorted (l : List (String × String)) :
    entriesSorted (sortEntries l) := by
  induction l with
  | nil => trivial
  | cons e t ih => exact insertEntry_sorted e ih

theorem insertEntry_of_headGe {e : String × String} {l : List (String × String)}
    (h : headGe e.1 l) : insertEntry e l = e :: l := by
  cases l with
  | nil => rfl
  | cons e2 t => rw [insertEntry, if_neg (by simp [headGe] at h; simp [h])]

theorem sortEntries_of_sorted : ∀ {l : List (String × String)},
    entriesSorted l → sortEntries l = l := by
  intro l
  induction l with
  | nil => intro _; rfl
  | cons e t ih =>
      intro hs
      rw [sortEntries, ih hs.2, insertEntry_of_headGe hs.1]

theorem sortEntries_idem (l : List (String × String)) :
    sortEntries (sortEntries l) = sortEntries l :=
  sortEntries_of_sorted (sortEntries_sorted l)

theorem renderPairs_insertPair (k : String) (v : Json) :
    (l : JsonObj) → renderPairs (insertPair k v l)
      = insertEntry (k, serialize v) (renderPairs l)
  | .nil => rfl
  | .cons k2 v2 t => by
      rw [insertPair]
      by_cases hlt : strLtB k2 k = true
      · rw [if_pos hlt]
        show (k2, serialize v2) :: renderPairs (insertPair k v t)
            = insertEntry (k, serialize v) ((k2, serialize v2) :: renderPairs t)
        rw [renderPairs_insertPair k v t, insertEntry, if_pos hlt]
      · rw [if_neg hlt]
        show (k, serialize v) :: (k2, serialize v2) :: renderPairs t
            = insertEntry (k, serialize v) ((k2, serialize v2) :: renderPairs t)
        rw [insertEntry, if_neg (by simp [hlt])]

theorem renderPairs_sortPairs : (l : JsonObj) →
    renderPairs (sortPairs l) = sortEntries (renderPairs l)
  | .nil => rfl
  | .cons k v t => by
      rw [sortPairs, renderPairs_insertPair, renderPairs_sortPairs t]
      rfl

mutual

/-- Serializing a recursively key-sorted value gives the same text as
serializing the original: `json.dumps(..., sort_keys=True)` already
emits every object in sorted key order. -/
theorem serialize_sortJson : (j : Json) → serialize (sortJson j) = serialize j
  | .null => rfl
  | .bool _ => rfl
  | .int _ => rfl
  | .str _ => rfl
  | .arr xs => by
      show "[" ++ joinElems (renderList (sortJsonList xs)) ++ "]"
          = "[" ++ joinElems (renderList xs) ++ "]"
      rw [renderList_sortJsonList xs]
  | .obj kvs => by
      show "\x7b" ++ joinEntries (sortEntries (renderPairs (sortPairs (sortJsonObj kvs)))) ++ "\x7d"
          = "\x7b" ++ joinEntries (sortEntries (renderPairs kvs)) ++ "\x7d"
      rw [renderPairs_sortPairs, sortEntries_idem, renderPairs_sortJsonObj kvs]

theorem renderList_sortJsonList : (xs : JsonList) →
    renderList (sortJsonList xs) = renderList xs
  | .nil => rfl
  | .cons x t => by
      show serialize (sortJson x) :: renderList (sortJsonList t)
          = serialize x :: renderList t
      rw [serialize_sortJson x, renderList_sortJsonList t]

theorem renderPairs_sortJsonObj : (kvs : JsonObj) →
    renderPairs (sortJsonObj kvs) = renderPairs kvs
  | .nil => rfl
  | .cons k v t => by
      show (k, serialize (sortJson v)) :: renderPairs (sortJsonObj t)
          = (k, serialize v) :: renderPairs t
      rw [serialize_sortJson v, renderPairs_sortJsonObj t]

end

/-! ### Lemmas: the digest is a 256-bit number -/

theorem wordAcc_lt {x : Nat} (k y : Nat) (hx : x < 2 ^ k) :
    wordAcc x y < 2 ^ (k + 32) := by
  have hy : y % 4294967296 < 4294967296 := Nat.mod_lt _ (by norm_num)
  have h1 : wordAcc x y < (x + 1) * 4294967296 := by
    unfold wordAcc; nlinarith
  have h2 : (x + 1) * 4294967296 ≤ 2 ^ k * 4294967296 :=
    Nat.mul_le_mul_right _ hx
  have h3 : (2 : Nat) ^ k * 4294967296 = 2 ^ (k + 32) := by
    rw [pow_add]; norm_num
  omega

theorem hash8Nat_lt (s : Hash8) : hash8Nat s < 2 ^ 256 := by
  have h0 : s.a % 4294967296 < 2 ^ 32 := Nat.mod_lt _ (by norm_num)
  have h1 := wordAcc_lt 32 s.b h0
  have h2 := wordAcc_lt 64 s.c h1
  have h3 := wordAcc_lt 96 s.d h2
  have h4 := wordAcc_lt 128 s.e h3
  have h5 := wordAcc_lt 160 s.f h4
  have h6 := wordAcc_lt 192 s.g h5
  have h7 := wordAcc_lt 224 s.h h6
  exact h7

theorem sha256Nat_lt (msg : List Nat) : sha256Nat msg < 2 ^ 256 :=
  hash8Nat_lt _

theorem famJson_sortJson (n : Nat) : sortJson (famJson n) = famJson n := rfl

theorem famJson_not_contentEq {m n : Nat} (h : m ≠ n) :
    ¬ ContentEq (famJson m) (famJson n) := by
  intro hc
  unfold ContentEq at hc
  rw [famJson_sortJson, famJson_sortJson] at hc
  unfold famJson at hc
  rw [Json.obj.injEq, JsonObj.cons.injEq] at hc
  rw [Json.int.injEq] at hc
  omega

/-- Pigeonhole: SHA-256 has only `2 ^ 256` possible digests, so over the
infinite family `famJson` two distinct records share a digest. -/
theorem compute_hash_exists_collision :
    ∃ m n : Nat, m ≠ n ∧ compute_hash (famJson m) = compute_hash (famJson n) := by
  obtain ⟨m, n, hne, heq⟩ := Finite.exists_ne_map_eq_of_infinite
    (fun i : Nat =>
      (⟨sha256Nat (strBytes (serialize (famJson i))), sha256Nat_lt _⟩ : Fin (2 ^ 256)))
  refine ⟨m, n, hne, ?_⟩
  have hval : sha256Nat (strBytes (serialize (famJson m)))
      = sha256Nat (strBytes (serialize (famJson n))) := congrArg Fin.val heq
  unfold compute_hash sha256Hex
  rw [hval]

/-! ### Lemmas: the dedup filter -/

theorem length_filter_not {α : Type} (p : α → Bool) (l : List α) :
    (l.filter (fun x => !(p x))).length = l.length - (l.filter p).length := by
  induction l with
  | nil => rfl
  | cons x t ih =>
      have hle : (t.filter p).length ≤ t.length := List.length_filter_le _ _
      by_cases h : p x = true
      · simp [List.filter_cons, h, ih]
      · have h2 : p x = false := Bool.eq_false_iff.mpr h
        simp [List.filter_cons, h2, ih]
        omega

/-! ### Lemmas: running the pipeline -/

/-- A successful run in one equation: status accepted, body parsed, archive
stage succeeded; all four tables receive their appends and the run is done. -/
theorem ingestPipeline_success (status : Nat) (text ts : String) (data0 : List Json)
    (db : DB) (archRows : List ArchiveRow) (hs : status < 400)
    (ha : archiveStage (compute_hash (.str text)) (filteredPairs db data0 ts)
        (dfCols (data0.take 10)) = .ok archRows) :
    ingestPipeline (.response status text (some data0)) ts db =
      ({ tracker := db.tracker
            ++ (filteredPairs db data0 ts).map (fun rj => (rj.1.recordHash, "covid_api")),
         archive := db.archive ++ archRows,
         flat := db.flat ++ (filteredPairs db data0 ts).map (fun rj => rj.1.cells),
         fingLog := db.fingLog
            ++ [("covid_api", compute_hash (.str text), text.length)] },
       RunStatus.done) := by
  unfold filteredPairs at ha
  simp only [ingestPipeline]
  rw [if_neg (by omega), ha]
  rfl

/-- A run whose archive stage raises ends failed with the warehouse
untouched. -/
theorem ingestPipeline_archive_error (status : Nat) (text ts : String)
    (data0 : List Json) (db : DB) (u : Unit) (hs : status < 400)
    (ha : archiveStage (compute_hash (.str text)) (filteredPairs db data0 ts)
        (dfCols (data0.take 10)) = .error u) :
    ingestPipeline (.response status text (some data0)) ts db
      = (db, RunStatus.failed) := by
  unfold filteredPairs at ha
  simp only [ingestPipeline]
  rw [if_neg (by omega), ha]

/-! ### Claims -/

/-- Claim C1 (amended): two records with identical logical content —
equal after recursively sorting object keys, so in particular the same
entries in a different key order — get the same `compute_hash` digest.
The second half of the original claim (distinguishable content always
yields distinct digests) is refuted by `claim_C1_counterexample`. -/
theorem claim_C1_hash_deterministic (o1 o2 : Json) (h : ContentEq o1 o2) :
    compute_hash o1 = compute_hash o2 := by
  unfold ContentEq at h
  unfold compute_hash
  rw [← serialize_sortJson o1, ← serialize_sortJson o2, h]

theorem claim_C1_witness :
    ContentEq recCountryA recCountryARev
    ∧ compute_hash recCountryA = compute_hash recCountryARev :=
  ⟨rfl, claim_C1_hash_deterministic _ _ rfl⟩

/-- Claim C1, original second half refuted: it is not true that every two
records with distinguishable content have different digests — SHA-256 has
only `2 ^ 256` digests, so the infinite family `famJson` contains two
records with different content and equal digests. -/
theorem claim_C1_counterexample :
    ¬ (∀ o1 o2 : Json, ¬ ContentEq o1 o2 → compute_hash o1 ≠ compute_hash o2) := by
  intro hall
  obtain ⟨m, n, hne, heq⟩ := compute_hash_exists_collision
  exact hall (famJson m) (famJson n) (famJson_not_contentEq hne) heq

/-- Claim C2: filtering a batch of `N` candidate rows against the
existing-hash set removes exactly the `M` rows whose hash is tracked
(keeping `N − M`), preserves relative order (the result is a sublist),
and no kept row has a tracked hash. -/
theorem claim_C2_dedup_filter (existing : List String) (pairs : List (NormRow × Json)) :
    (dedupFilter existing pairs).length
      = pairs.length
        - (pairs.filter (fun rj => decide (rj.1.recordHash ∈ existing))).length
    ∧ (dedupFilter existing pairs).Sublist pairs
    ∧ ∀ rj ∈ dedupFilter existing pairs, rj.1.recordHash ∉ existing := by
  refine ⟨?_, List.filter_sublist _, ?_⟩
  · unfold dedupFilter
    have h := length_filter_not
      (fun rj : NormRow × Json => decide (rj.1.recordHash ∈ existing)) pairs
    simpa [decide_not] using h
  · intro rj hm
    have h := List.mem_filter.mp hm
    simpa using h.2

/-- Claim C3: when the fetch stage fails — the request raises (timeout),
`raise_for_status` raises on an HTTP error status, or the body is not
well-formed JSON — the run ends failed and no table receives any row. -/
theorem claim_C3_fetch_failure (f : FetchOutcome) (ts : String) (db : DB)
    (h : fetchFails f) : ingestPipeline f ts db = (db, RunStatus.failed) := by
  cases f with
  | timeout => rfl
  | response status text parsed =>
      unfold fetchFails at h
      rcases h with h4 | hnone
      · simp [ingestPipeline, h4]
      · subst hnone
        by_cases h4 : 400 ≤ status
        · simp [ingestPipeline, h4]
        · simp [ingestPipeline, h4]

theorem claim_C3_witness :
    fetchFails (FetchOutcome.response 500 "Internal Server Error" none)
    ∧ ingestPipeline (FetchOutcome.response 500 "Internal Server Error" none)
        "ts" emptyDB = (emptyDB, RunStatus.failed) :=
  ⟨Or.inl (by norm_num),
   claim_C3_fetch_failure _ _ _ (Or.inl (by norm_num))⟩

/-- Claim C4 (amended): the fingerprint a successful run logs is
`compute_hash(response.text)` — the SHA-256 digest of the *JSON string
serialization* of the body text (`json.dumps` wraps the text in quotes and
escapes it), not of the raw text itself; it is a function of the body text
alone, independent of the per-record hashes.  The original "digest of the
raw body text itself" reading is refuted by `claim_C4_counterexample`. -/
theorem claim_C4_fingerprint (status : Nat) (text ts : String) (data : List Json)
    (db : DB)
    (h : (ingestPipeline (.response status text (some data)) ts db).2 = RunStatus.done) :
    (ingestPipeline (.response status text (some data)) ts db).1.fingLog
      = db.fingLog ++ [("covid_api", compute_hash (Json.str text), text.length)] := by
  by_cases h4 : 400 ≤ status
  · simp [ingestPipeline, h4] at h
  · cases hca : archiveStage (compute_hash (.str text)) (filteredPairs db data ts)
        (dfCols (data.take 10)) with
    | error u =>
        rw [ingestPipeline_archive_error status text ts data db u (by omega) hca] at h
        exact absurd h (by simp)
    | ok archRows =>
        rw [ingestPipeline_success status text ts data db archRows (by omega) hca]

theorem claim_C4_witness :
    ((ingestPipeline (.response 200 "body" (some [])) "ts" emptyDB).2 = RunStatus.done)
    ∧ (ingestPipeline (.response 200 "body" (some [])) "ts" emptyDB).1.fingLog
      = emptyDB.fingLog
        ++ [("covid_api", compute_hash (Json.str "body"), "body".length)] :=
  ⟨rfl, claim_C4_fingerprint 200 "body" "ts" [] emptyDB rfl⟩

/-- Claim C4, original refuted: for the run that fetches body text `"x"`,
the logged fingerprint is `compute_hash(Json.str "x")`, which differs from
the SHA-256 digest of the raw text `"x"` itself — the script hashes the
`json.dumps` re-serialization `"\"x\""` of the body. -/
theorem claim_C4_counterexample :
    (ingestPipeline (.response 200 "x" (some [])) "ts" emptyDB).1.fingLog
      = [("covid_api", compute_hash (Json.str "x"), 1)]
    ∧ compute_hash (Json.str "x") ≠ sha256Hex (strBytes "x") :=
  ⟨rfl, by decide⟩

/-- Claim C5 (amended): `pd.json_normalize` flattens a nested object by
joining the nesting levels with a dot, and the script's renaming
`c.upper().replace(" ", "_")` uppercases and replaces spaces only — so
`{"country": "C", "stats": {"cases": 5}}` yields the column
`STATS.CASES` (not `STATS_CASES`) with value 5. -/
theorem claim_C5_nested_flatten :
    (∀ (k : String) (kvs t2 : JsonObj),
        flattenPairs (JsonObj.cons k (Json.obj kvs) t2)
          = (flattenPairs kvs).map (fun p => (k ++ "." ++ p.1, p.2))
            ++ flattenPairs t2)
    ∧ normRecord recNested
        = [("COUNTRY", Json.str "C"), ("STATS.CASES", Json.int 5)] := by
  constructor
  · intro k kvs t2; rfl
  · rfl

/-- Claim C5, original refuted: the normalized form of
`{"country": "C", "stats": {"cases": 5}}` has no column `STATS_CASES`. -/
theorem claim_C5_counterexample :
    (normRecord recNested).lookup "STATS_CASES" = none := rfl

/-- Claim C6: the schema-inference chain maps pandas dtypes to target
types by the fixed precedence integer → NUMBER, float → FLOAT,
boolean → BOOLEAN, timestamp → TIMESTAMP, anything else → STRING, and a
column whose values are all `None` gets the object dtype and hence the
STRING type — nulls receive no special treatment. -/
theorem claim_C6_schema_inference :
    sqlTypeOfDtype Dtype.int64 = "NUMBER"
    ∧ sqlTypeOfDtype Dtype.float64 = "FLOAT"
    ∧ sqlTypeOfDtype Dtype.boolean = "BOOLEAN"
    ∧ sqlTypeOfDtype Dtype.datetime64 = "TIMESTAMP"
    ∧ sqlTypeOfDtype Dtype.object = "STRING"
    ∧ (∀ vs : List PyKind, vs.all (fun v => v = PyKind.pnone) = true →
        sqlTypeOfDtype (inferDtype vs) = "STRING") := by
  refine ⟨rfl, rfl, rfl, rfl, rfl, ?_⟩
  intro vs h
  cases vs with
  | nil => rfl
  | cons k t =>
      simp only [List.all_cons, Bool.and_eq_true, decide_eq_true_eq] at h
      obtain ⟨hk, ht⟩ := h
      subst hk
      have hall : (PyKind.pnone :: t).all (fun v => v = PyKind.pnone) = true := by
        simp [List.all_cons, ht]
      simp [inferDtype, sqlTypeOfDtype, hall]

theorem claim_C6_witness :
    ([PyKind.pnone, PyKind.pnone].all (fun v => v = PyKind.pnone) = true)
    ∧ sqlTypeOfDtype (inferDtype [PyKind.pnone, PyKind.pnone]) = "STRING" :=
  ⟨by decide, claim_C6_schema_inference.2.2.2.2.2 _ (by decide)⟩

/-- Claim C7: a successful run appends exactly one hash-tracker row per
filtered (new) record, and exactly one fingerprint-log row — also when
zero records were new, since the log insert runs unconditionally after
the loop over the filtered batch. -/
theorem claim_C7_bookkeeping (status : Nat) (text ts : String) (data : List Json)
    (db : DB)
    (h : (ingestPipeline (.response status text (some data)) ts db).2 = RunStatus.done) :
    (ingestPipeline (.response status text (some data)) ts db).1.tracker.length
        = db.tracker.length + (filteredPairs db data ts).length
    ∧ (ingestPipeline (.response status text (some data)) ts db).1.fingLog.length
        = db.fingLog.length + 1 := by
  by_cases h4 : 400 ≤ status
  · simp [ingestPipeline, h4] at h
  · cases hca : archiveStage (compute_hash (.str text)) (filteredPairs db data ts)
        (dfCols (data.take 10)) with
    | error u =>
        rw [ingestPipeline_archive_error status text ts data db u (by omega) hca] at h
        exact absurd h (by simp)
    | ok archRows =>
        rw [ingestPipeline_success status text ts data db archRows (by omega) hca]
        constructor <;> simp

theorem claim_C7_witness :
    ((ingestPipeline (.response 200 "t" (some [recCountryA])) "ts" emptyDB).2
        = RunStatus.done)
    ∧ ((ingestPipeline (.response 200 "t" (some [recCountryA])) "ts" emptyDB).1.tracker.length
        = emptyDB.tracker.length + (filteredPairs emptyDB [recCountryA] "ts").length
      ∧ (ingestPipeline (.response 200 "t" (some [recCountryA])) "ts" emptyDB).1.fingLog.length
        = emptyDB.fingLog.length + 1) :=
  ⟨rfl, claim_C7_bookkeeping 200 "t" "ts" [recCountryA] emptyDB rfl⟩

/-- Claim C8 (amended): a candidate row survives the dedup filter exactly
when its hash is absent from the set of *all* tracked hashes — the
`SELECT RECORD_HASH FROM …RECORD_HASH_TRACKER` query has no
`record_source` filter, so hashes of every source count.  The original
per-source reading is refuted by `claim_C8_counterexample`. -/
theorem claim_C8_dedup_membership (db : DB) (data : List Json) (ts : String)
    (rj : NormRow × Json) :
    rj ∈ filteredPairs db data ts
      ↔ rj ∈ (buildRows (data.take 10) ts).zip (data.take 10)
        ∧ rj.1.recordHash ∉ db.tracker.map Prod.fst := by
  unfold filteredPairs dedupFilter existingHashes
  simp [List.mem_filter]

/-- Claim C8, original refuted: with `recCountryA`'s hash tracked only
under source `other_api`, the record's hash is not among the
`covid_api` pairs, yet the filter still drops it — membership is not
tested against the run's source only. -/
theorem claim_C8_counterexample :
    ¬ (∀ (db : DB) (data : List Json) (ts : String) (rj : NormRow × Json),
        rj ∈ filteredPairs db data ts
          ↔ rj ∈ (buildRows (data.take 10) ts).zip (data.take 10)
            ∧ rj.1.recordHash ∉
                ((db.tracker.filter (fun r => decide (r.2 = "covid_api"))).map
                  Prod.fst)) := by
  intro hall
  have h := (hall dbOtherSource [recCountryA] "ts" (mkRow "ts" recCountryA, recCountryA)).mpr
    ⟨List.mem_singleton.mpr rfl, by simp [dbOtherSource]⟩
  rw [(by rfl :
    filteredPairs dbOtherSource [recCountryA] "ts" = ([] : List (NormRow × Json)))] at h
  exact absurd h (List.not_mem_nil _)

/-- Claim C9: both scripts process only a fixed-size prefix of the fetched
array — the first ten elements in the main pipeline (`json_data[:10]`)
and the first five in the CSV variant (`response.json()[:5]`); every run
produces exactly what it would produce on the truncated array, so later
elements reach no table. -/
theorem claim_C9_take_truncation (status : Nat) (text ts : String)
    (data : List Json) (db : DB) :
    ingestPipeline (.response status text (some data)) ts db
      = ingestPipeline (.response status text (some (data.take 10))) ts db
    ∧ csvIngest data ts = csvIngest (data.take 5) ts := by
  constructor
  · have h : (data.take 10).take 10 = data.take 10 := by
      rw [List.take_take, min_self]
    simp only [ingestPipeline, h]
  · have h : (data.take 5).take 5 = data.take 5 := by
      rw [List.take_take, min_self]
    simp only [csvIngest, h]

/-- Claim C10: the archive write reads `row['COUNTRY']` as the archive
row's id; on a batch whose records have no `country` key the dataframe
has no `COUNTRY` column, so the archive stage raises and the run fails
with no archive, flat, tracker or fingerprint-log row written, while on a
batch with the key the archived id is the country value. -/
theorem claim_C10_archive_requires_country :
    ingestPipeline (.response 200 "t" (some [recNoCountry])) "ts" emptyDB
        = (emptyDB, RunStatus.failed)
    ∧ archiveStage (compute_hash (Json.str "t"))
        (filteredPairs emptyDB [recNoCountry] "ts") (dfCols [recNoCountry])
        = Except.error ()
    ∧ (ingestPipeline (.response 200 "t" (some [recCountryA])) "ts" emptyDB).1.archive.map
        ArchiveRow.id = [Json.str "A"] :=
  ⟨rfl, rfl, rfl⟩
